import Mathlib

/-!
Verification of the Transition & Navigation Engine of the form-runtime
service (`main.py`, with the SQLite schema of `migrate.py`).

The engine is embedded shallowly:
* Python runtime values that flow through the evaluators are `PyVal`
  (`None`, `bool`, numbers, strings).  The service talks to SQLite through
  raw textual queries, so stored `BOOLEAN` columns come back as the
  integers `0`/`1`, never as Python booleans; `REAL` columns come back as
  numbers (modelled by `Rat`) and `DATE`/`TEXT` columns as strings.
* The relational store is a `DB` record of row lists, one list per table,
  kept in stored (rowid) order.  `id INTEGER PRIMARY KEY` columns are
  rowid aliases, so the list order of a table reachable through the API is
  its insertion order.  `SELECT ... ORDER BY k` is modelled as a stable
  insertion sort of the matching rows by `k`: ties keep stored row order
  (the query requests no further tie-break).
* Fallible Python code (uncaught `ValueError`/`TypeError`, HTTP error
  responses) is modelled with `Except`.
-/

/-- A Python runtime value as it occurs in the engine: `None`, a `bool`
(from request JSON only -- SQLite never returns one), an `int`/`float`
(collapsed into `Rat`; every number the engine compares is produced by
`float(...)` or comes from an `INTEGER`/`REAL` column), or a `str`. -/
inductive PyVal
  | none
  | bool (b : Bool)
  | num (q : Rat)
  | str (s : String)
deriving DecidableEq, Repr

/-- Python `bool(x)` for the values above; total. -/
def pyBool : PyVal → Bool
  | .none => false
  | .bool b => b
  | .num q => q ≠ 0
  | .str s => s ≠ ""

/-- Digit run to a natural number, `foldl`-style like positional parsing. -/
def digitsToNat (cs : List Char) : Nat :=
  cs.foldl (fun n c => 10 * n + (c.toNat - 48)) 0

/-- Model of Python `float(s)` on strings: optional surrounding spaces,
optional sign, a decimal literal `ddd`, `ddd.ddd`, `.ddd` or `ddd.`.
`Option.none` models the `ValueError` raised on anything else (the model
omits exponent and infinity forms, which the engine never relies on). -/
def parseFloat (s : String) : Option Rat :=
  let cs := ((s.toList.dropWhile (fun c => c == ' ')).reverse.dropWhile
    (fun c => c == ' ')).reverse
  let signAndBody : Bool × List Char :=
    match cs with
    | '-' :: rest => (true, rest)
    | '+' :: rest => (false, rest)
    | _ => (false, cs)
  let neg := signAndBody.1
  let body := signAndBody.2
  let intPart := body.takeWhile Char.isDigit
  let rest := body.dropWhile Char.isDigit
  let mkNum : Nat → Nat → Option Rat := fun n d =>
    let q : Rat := Rat.divInt (Int.ofNat n) (Int.ofNat d)
    Option.some (if neg then -q else q)
  match rest with
  | [] =>
    if intPart.isEmpty then Option.none
    else mkNum (digitsToNat intPart) 1
  | '.' :: frac =>
    if frac.all Char.isDigit && !(intPart.isEmpty && frac.isEmpty) then
      mkNum (digitsToNat intPart * Nat.pow 10 frac.length + digitsToNat frac)
        (Nat.pow 10 frac.length)
    else Option.none
  | _ => Option.none

/-- Python `float(x)`: `Option.none` models the raised
`TypeError` (on `None`) or `ValueError` (on a non-numeric string). -/
def pyFloat : PyVal → Option Rat
  | .none => Option.none
  | .bool b => Option.some (if b then 1 else 0)
  | .num q => Option.some q
  | .str s => parseFloat s

/-- Model of Python decimal rendering of a number (`str` on the numbers the
engine handles); only its totality and injectivity on equal inputs matter
to the evaluators. -/
def numRepr (q : Rat) : String :=
  toString q.num ++ "/" ++ toString q.den

/-- Python `str(x)`; total. -/
def pyStr : PyVal → String
  | .none => "None"
  | .bool b => if b then "True" else "False"
  | .num q => numRepr q
  | .str s => s

/-- SQLite storage of a bound Python value: booleans are stored as the
integers `1`/`0`; other values keep their storage class. -/
def pyToSqlite : PyVal → PyVal
  | .bool b => .num (if b then 1 else 0)
  | v => v

/-- A row of `form_steps` (the columns the runtime engine reads). -/
structure StepRow where
  id : Nat
  form_id : Nat
  code : String
  is_terminal : Bool
deriving DecidableEq, Repr

/-- A row of `step_transitions` (the columns the runtime engine reads). -/
structure TransitionRow where
  id : Nat
  form_id : Nat
  source_step_id : Nat
  target_step_id : Nat
  condition_group_id : Nat
  priority : Int
deriving DecidableEq, Repr

/-- A row of `condition_groups`. -/
structure GroupRow where
  id : Nat
  logic_op : String
deriving DecidableEq, Repr

/-- A row of `conditions`.  `value_bool` is a SQLite `BOOLEAN` column: the
raw-query driver returns its contents as `0`/`1` integers. -/
structure ConditionRow where
  id : Nat
  group_id : Nat
  field_id : Nat
  op_code : String
  value_text : Option String
  value_num : Option Rat
  value_bool : Option Int
  value_date : Option String
  option_code : Option String
  position : Int
deriving DecidableEq, Repr

/-- A row of `step_fields` (the columns the runtime engine reads);
`data_type` is the resolved `field_data_types.code`. -/
structure FieldRow where
  id : Nat
  step_id : Nat
  code : String
  data_type : String
deriving DecidableEq, Repr

/-- A row of `instance_answers`.  As in `conditions`, `value_bool` reads
back as a `0`/`1` integer; `value_date` stores the submitted value
unchanged (normally a string). -/
structure AnswerRow where
  instance_id : Nat
  field_id : Nat
  value_text : Option String
  value_num : Option Rat
  value_bool : Option Int
  value_date : Option PyVal
deriving DecidableEq, Repr

/-- A row of `instance_steps` (the step entry/exit ledger). -/
structure InstanceStepRow where
  instance_id : Nat
  step_id : Nat
  status_code : String
  entered_at : Nat
  left_at : Option Nat
deriving DecidableEq, Repr

/-- A row of `form_instances`; the `status_id` foreign key is modelled by
the resolved `instance_statuses.code`. -/
structure InstanceRow where
  id : Nat
  form_id : Nat
  current_step_id : Option Nat
  status : String
deriving DecidableEq, Repr

/-- The relational store: one list per table, in stored (rowid) order. -/
structure DB where
  steps : List StepRow
  transitions : List TransitionRow
  groups : List GroupRow
  conditions : List ConditionRow
  fields : List FieldRow
  answers : List AnswerRow
  instance_steps : List InstanceStepRow
  instances : List InstanceRow
deriving DecidableEq, Repr

/-- The expected operand of a condition: the first non-NULL of
`(value_bool, value_text, value_num, value_date, option_code)`, exactly
the `next(...)` in `_evaluate_group`.  A stored `value_bool` of `0` is not
NULL, so it is selected (as the integer `0`). -/
def condExpected (c : ConditionRow) : PyVal :=
  match c.value_bool with
  | Option.some i => .num (i : Rat)
  | Option.none =>
    match c.value_text with
    | Option.some s => .str s
    | Option.none =>
      match c.value_num with
      | Option.some q => .num q
      | Option.none =>
        match c.value_date with
        | Option.some d => .str d
        | Option.none =>
          match c.option_code with
          | Option.some o => .str o
          | Option.none => .none

/-- The recorded value of an answer row: the first non-NULL of
`(value_bool, value_text, value_num, value_date)`, exactly the `next(...)`
in `_get_all_answers` and `_get_step_details`. -/
def answerValue (r : AnswerRow) : PyVal :=
  match r.value_bool with
  | Option.some i => .num (i : Rat)
  | Option.none =>
    match r.value_text with
    | Option.some s => .str s
    | Option.none =>
      match r.value_num with
      | Option.some q => .num q
      | Option.none =>
        match r.value_date with
        | Option.some v => v
        | Option.none => .none

/-- `_get_all_answers`: the instance's full answer snapshot as a total map
`field_id -> value`; a missing field maps to `None`, like `dict.get`.  The
source dict comprehension lets a later row win on a duplicate key, hence
`getLast?` (the `UNIQUE (instance_id, field_id)` constraint makes
duplicates impossible in reachable states). -/
def get_all_answers (db : DB) (instance_id : Nat) : Nat → PyVal :=
  fun fid =>
    match ((db.answers.filter (fun r => r.instance_id == instance_id)).filter
        (fun r => r.field_id == fid)).getLast? with
    | Option.some r => answerValue r
    | Option.none => .none

/-- The `eq` branch of `_check_condition`: a Python-`bool` operand
boolean-coerces the actual value; a numeric operand float-coerces both
sides (`Except.error` models the raised `ValueError`/`TypeError`);
anything else is compared as strings. -/
def checkEq (a e : PyVal) : Except Unit Bool :=
  match e with
  | .bool b => .ok (pyBool a == b)
  | .num _ =>
    match pyFloat a, pyFloat e with
    | Option.some x, Option.some y => .ok (x == y)
    | _, _ => .error ()
  | _ => .ok (pyStr a == pyStr e)

/-- The `is_empty` test of `_check_condition`:
`actual is None or actual == ""`. -/
def isEmptyVal : PyVal → Bool
  | .none => true
  | .str s => s == ""
  | _ => false

/-- The body of `_check_condition` before its `except` clause; an
`Except.error` is an uncaught `ValueError`/`TypeError`.  The `ne` branch
of the source re-enters `_check_condition` with `'eq'`, i.e. the caught
evaluation of `eq`, hence the `getD false` there. -/
def checkConditionExc (a : PyVal) (op_code : String) (e : PyVal) : Except Unit Bool :=
  if op_code == "is_true" then .ok (pyBool a == true)
  else if op_code == "is_false" then .ok (pyBool a == false)
  else if op_code == "eq" then checkEq a e
  else if op_code == "ne" then .ok (!((checkEq a e).toOption.getD false))
  else if op_code == "is_empty" then .ok (isEmptyVal a)
  else if op_code == "not_empty" then .ok (!(isEmptyVal a))
  else .ok false

/-- `_check_condition`: the body above with its
`except (ValueError, TypeError): return False` clause. -/
def check_condition (a : PyVal) (op_code : String) (e : PyVal) : Bool :=
  (checkConditionExc a op_code e).toOption.getD false

/-- Order used by `ORDER BY c.position` on conditions. -/
def condPosLE (a b : ConditionRow) : Prop := a.position ≤ b.position

instance : DecidableRel condPosLE := fun a b => Int.decLe a.position b.position

/-- `_evaluate_group`: look up the group (`False` if it does not exist),
load its conditions ordered by `position` (ties keep stored row order),
return `True` for an empty group, otherwise combine the atomic results
with `all`/`any` according to `logic_op`. -/
def evaluate_group (db : DB) (group_id : Nat) (all_answers : Nat → PyVal) : Bool :=
  match db.groups.find? (fun g => g.id == group_id) with
  | Option.none => false
  | Option.some g =>
    let conds := List.insertionSort condPosLE
      (db.conditions.filter (fun c => c.group_id == group_id))
    if conds.isEmpty then true
    else
      let results := conds.map
        (fun c => check_condition (all_answers c.field_id) c.op_code (condExpected c))
      if g.logic_op == "AND" then results.all (fun x => x) else results.any (fun x => x)

/-- Order used by `ORDER BY priority` on transitions (no tie-break in the
runtime query). -/
def transPrioLE (a b : TransitionRow) : Prop := a.priority ≤ b.priority

instance : DecidableRel transPrioLE := fun a b => Int.decLe a.priority b.priority

/-- `_get_valid_forward_steps` (the spec's `resolveForwardSteps`): load the
outgoing transitions of the source step ordered by `priority` only, return
`[]` when there are none, otherwise collect the target steps of the
transitions whose guard evaluates to true, in that order.  Note: there is
no `is_terminal` check here. -/
def get_valid_forward_steps (db : DB) (instance_id source_step_id : Nat) : List Nat :=
  let transitions := List.insertionSort transPrioLE
    (db.transitions.filter (fun t => t.source_step_id == source_step_id))
  if transitions.isEmpty then []
  else
    let all_answers := get_all_answers db instance_id
    (transitions.filter
      (fun t => evaluate_group db t.condition_group_id all_answers)).map
      (fun t => t.target_step_id)

/-- `_determine_next_step` (the spec's `determineNextStep`).  The outer
`Option` models the uncaught `AttributeError` the source raises when the
step row does not exist (`fetch_one` returns `None`); the inner one is the
function's own `step id | None` result. -/
def determine_next_step (db : DB) (instance_id current_step_id : Nat) :
    Option (Option Nat) :=
  match db.steps.find? (fun s => s.id == current_step_id) with
  | Option.none => Option.none
  | Option.some st =>
    if st.is_terminal then Option.some Option.none
    else Option.some (get_valid_forward_steps db instance_id current_step_id).head?

/-- The completed-steps set of `_validate_navigation`: `step_id` of the
instance's ledger rows with status `completed` (no ordering requested). -/
def completedStepIds (db : DB) (instance_id : Nat) : List Nat :=
  (db.instance_steps.filter
    (fun r => r.instance_id == instance_id && r.status_code == "completed")).map
    (fun r => r.step_id)

/-- `_validate_navigation` (the spec's `validateNavigation`): allowed
targets are the completed steps, plus — when a current step is set — the
current step and its forward set; any other target raises
`HTTPException(403)`, modelled as `Except.error 403`.  The source builds a
Python set and tests membership, so only membership matters. -/
def validate_navigation (db : DB) (instance_id : Nat) (current_step_id : Option Nat)
    (target_step_id : Nat) : Except Nat Unit :=
  let allowed : List Nat :=
    match current_step_id with
    | Option.some c =>
      completedStepIds db instance_id ++ [c] ++ get_valid_forward_steps db instance_id c
    | Option.none => completedStepIds db instance_id
  if allowed.contains target_step_id then .ok () else .error 403

/-- The `field_map` dict of `_save_answers`, as a lookup:
`field_code -> (field id, data type)` over the step's fields; a later row
wins on a duplicate code, like the source dict comprehension. -/
def fieldLookup (db : DB) (step_id : Nat) (field_code : String) :
    Option (Nat × String) :=
  (((db.fields.filter (fun f => f.step_id == step_id)).filter
    (fun f => f.code == field_code)).getLast?).map (fun f => (f.id, f.data_type))

/-- The four value columns produced by the per-type coercion of
`_save_answers`. -/
structure AnswerCols where
  value_text : Option String
  value_num : Option Rat
  value_bool : Option Int
  value_date : Option PyVal
deriving DecidableEq, Repr

/-- The per-type coercion of `_save_answers`: `boolean -> bool(raw)`
(stored by SQLite as `1`/`0`), `integer`/`decimal -> float(raw)`
(`Except.error` models the uncaught `ValueError`/`TypeError`),
`date`/`datetime` pass through, everything else `-> str(raw)`; a `None`
raw value stores NULL in every branch. -/
def coerceAnswer (data_type : String) (raw : PyVal) : Except Unit AnswerCols :=
  if data_type == "boolean" then
    .ok ⟨Option.none, Option.none,
      (match raw with
       | .none => Option.none
       | v => Option.some (if pyBool v then 1 else 0)), Option.none⟩
  else if data_type == "integer" || data_type == "decimal" then
    match raw with
    | .none => .ok ⟨Option.none, Option.none, Option.none, Option.none⟩
    | v =>
      match pyFloat v with
      | Option.some q => .ok ⟨Option.none, Option.some q, Option.none, Option.none⟩
      | Option.none => .error ()
  else if data_type == "date" || data_type == "datetime" then
    .ok ⟨Option.none, Option.none, Option.none,
      (match raw with
       | .none => Option.none
       | v => Option.some (pyToSqlite v))⟩
  else
    .ok ⟨(match raw with
          | .none => Option.none
          | v => Option.some (pyStr v)), Option.none, Option.none, Option.none⟩

/-- The `ON CONFLICT (instance_id, field_id) DO UPDATE` upsert of
`_save_answers`: an existing row is updated in place (keeping its rowid
position), otherwise the new row is appended. -/
def upsertAnswer (rows : List AnswerRow) (row : AnswerRow) : List AnswerRow :=
  if rows.any (fun r => r.instance_id == row.instance_id && r.field_id == row.field_id)
  then rows.map (fun r =>
    if r.instance_id == row.instance_id && r.field_id == row.field_id then row else r)
  else rows ++ [row]

/-- The submission loop of `_save_answers` over the answers table: a pair
whose `field_code` is not in the field map is skipped silently; a
recognized pair is coerced (an error aborts the transaction) and
upserted. -/
def saveAnswersGo (db : DB) (instance_id step_id : Nat) :
    List AnswerRow → List (String × PyVal) → Except Unit (List AnswerRow)
  | rows, [] => .ok rows
  | rows, (field_code, raw) :: rest =>
    match fieldLookup db step_id field_code with
    | Option.none => saveAnswersGo db instance_id step_id rows rest
    | Option.some (fid, dt) =>
      match coerceAnswer dt raw with
      | .error e => .error e
      | .ok cols =>
        saveAnswersGo db instance_id step_id
          (upsertAnswer rows
            ⟨instance_id, fid, cols.value_text, cols.value_num, cols.value_bool,
              cols.value_date⟩) rest

/-- `_save_answers` (the spec's `saveAnswers`): run the loop inside one
transaction; on an error the transaction rolls back and the store is
unchanged. -/
def save_answers (db : DB) (instance_id step_id : Nat)
    (answers : List (String × PyVal)) : Except Unit DB :=
  match saveAnswersGo db instance_id step_id db.answers answers with
  | .ok rows => .ok { db with answers := rows }
  | .error e => .error e

/-- The ledger update of `submit_step`: mark every `(instance, step)`
ledger row completed and record `left_at`. -/
def completeLedgerRow (db : DB) (instance_id step_id now : Nat) : DB :=
  { db with
    instance_steps := db.instance_steps.map (fun r =>
      if r.instance_id == instance_id && r.step_id == step_id then
        { r with status_code := "completed", left_at := Option.some now }
      else r) }

/-- The result body of the `/instance/.../submit` endpoint (the fields the
flow engine determines). -/
structure SubmitOutcome where
  next_step_id : Option Nat
  is_complete : Bool
deriving DecidableEq, Repr

/-- `submit_step` (the spec's `submitStep`), with `CURRENT_TIMESTAMP`
supplied as `now`: fetch the instance (404 when missing or its
`current_step_id` is NULL), save the answers, mark the current ledger row
completed, then resolve the next step.  If one exists the instance pointer
moves there and a new `entered` ledger row is appended; otherwise --
terminal or not -- the instance is marked `completed` and its
`current_step_id` is set to NULL.  Every failure is `Except.error`. -/
def submit_step (db : DB) (instance_id : Nat) (answers : List (String × PyVal))
    (now : Nat) : Except Unit (DB × SubmitOutcome) :=
  match db.instances.find? (fun i => i.id == instance_id) with
  | Option.none => .error ()
  | Option.some inst =>
    match inst.current_step_id with
    | Option.none => .error ()
    | Option.some cur =>
      match save_answers db instance_id cur answers with
      | .error e => .error e
      | .ok db1 =>
        let db2 := completeLedgerRow db1 instance_id cur now
        match determine_next_step db2 instance_id cur with
        | Option.none => .error ()
        | Option.some (Option.some nxt) =>
          let db3 := { db2 with
            instances := db2.instances.map (fun i =>
              if i.id == instance_id then { i with current_step_id := Option.some nxt }
              else i),
            instance_steps := db2.instance_steps ++
              [⟨instance_id, nxt, "entered", now, Option.none⟩] }
          .ok (db3, ⟨Option.some nxt, false⟩)
        | Option.some Option.none =>
          let db3 := { db2 with
            instances := db2.instances.map (fun i =>
              if i.id == instance_id then
                { i with status := "completed", current_step_id := Option.none }
              else i) }
          .ok (db3, ⟨Option.none, true⟩)

/-- Order following the spec's words for transition loading:
`(priority ascending, id ascending)`. -/
def transPrioIdLE (a b : TransitionRow) : Prop :=
  a.priority < b.priority ∨ (a.priority = b.priority ∧ a.id ≤ b.id)

instance : DecidableRel transPrioIdLE := fun a b => by
  unfold transPrioIdLE
  exact instDecidableOr

/-- Modelled from the spec: the forward set as §4.3 words it, with the
outgoing transitions ordered by `(priority ascending, id ascending)`;
to be compared with `get_valid_forward_steps`, which orders by priority
only. -/
def spec_forward_steps (db : DB) (instance_id source_step_id : Nat) : List Nat :=
  let transitions := List.insertionSort transPrioIdLE
    (db.transitions.filter (fun t => t.source_step_id == source_step_id))
  let all_answers := get_all_answers db instance_id
  (transitions.filter
    (fun t => evaluate_group db t.condition_group_id all_answers)).map
    (fun t => t.target_step_id)

/-- Scenario-B store (claim C1): step `S1` (id 1) with two outgoing
transitions — priority 10 guarded by `is_dev == true` to `S2` (id 2),
priority 20 guarded by `is_dev == false` to `S3` (id 3).  The `eq` guards
carry boolean literals, stored by SQLite as `value_bool = 1` / `0`.  No
answer is recorded for `is_dev`. -/
def dbC1 : DB :=
  { steps := [⟨1, 1, "s1", false⟩, ⟨2, 1, "s2", false⟩, ⟨3, 1, "s3", false⟩],
    transitions := [⟨1, 1, 1, 2, 1, 10⟩, ⟨2, 1, 1, 3, 2, 20⟩],
    groups := [⟨1, "AND"⟩, ⟨2, "AND"⟩],
    conditions :=
      [⟨1, 1, 1, "eq", Option.none, Option.none, Option.some 1, Option.none,
        Option.none, 100⟩,
       ⟨2, 2, 1, "eq", Option.none, Option.none, Option.some 0, Option.none,
        Option.none, 100⟩],
    fields := [⟨1, 1, "is_dev", "boolean"⟩],
    answers := [],
    instance_steps := [⟨1, 1, "entered", 0, Option.none⟩],
    instances := [⟨1, 1, Option.some 1, "in_progress"⟩] }

/-- C1: with the two `is_dev` guards of Scenario B and no recorded answer,
both guards evaluate to false (the expected operand reads back as the
integer `1`/`0`, so `eq` float-coerces `None` and the `TypeError` degrades
to false), the forward set is empty, and the next step is `None`. -/
theorem C1_scenarioB_unanswered_guards :
    evaluate_group dbC1 1 (get_all_answers dbC1 1) = false ∧
    evaluate_group dbC1 2 (get_all_answers dbC1 1) = false ∧
    get_valid_forward_steps dbC1 1 1 = [] ∧
    determine_next_step dbC1 1 1 = Option.some Option.none := by
  decide

/-- Claim-C2 store: step 1 is terminal but still has an outgoing
transition to step 2 guarded by an empty (vacuously true) group. -/
def dbC2 : DB :=
  { steps := [⟨1, 1, "s1", true⟩, ⟨2, 1, "s2", true⟩],
    transitions := [⟨1, 1, 1, 2, 1, 10⟩],
    groups := [⟨1, "AND"⟩],
    conditions := [],
    fields := [],
    answers := [],
    instance_steps := [],
    instances := [⟨1, 1, Option.some 1, "in_progress"⟩] }

/-- C2 counterexample: `_get_valid_forward_steps` has no `is_terminal`
check — on a terminal step with an eligible outgoing transition it returns
that target, not the empty list. -/
theorem C2_counterexample_terminal_forward_set :
    (dbC2.steps.find? (fun s => s.id == 1)).map (fun s => s.is_terminal) =
      Option.some true ∧
    get_valid_forward_steps dbC2 1 1 = [2] ∧
    ¬ get_valid_forward_steps dbC2 1 1 = [] := by
  decide

/-- C2 amended: the terminal short-circuit lives in `_determine_next_step`,
not in `_get_valid_forward_steps`: for every step whose `is_terminal` flag
is true, `determine_next_step` returns `None` whatever the stored
transitions and answers (the quantification over `db` covers both), while
the forward set itself is computed without consulting `is_terminal`. -/
theorem C2_amended_terminal_short_circuits_next_step
    (db : DB) (instance_id step_id : Nat) (st : StepRow)
    (hfind : db.steps.find? (fun s => s.id == step_id) = Option.some st)
    (hterm : st.is_terminal = true) :
    determine_next_step db instance_id step_id = Option.some Option.none := by
  unfold determine_next_step
  rw [hfind]
  simp [hterm]

theorem C2_amended_witness :
    dbC2.steps.find? (fun s => s.id == 1) = Option.some ⟨1, 1, "s1", true⟩ ∧
    determine_next_step dbC2 1 1 = Option.some Option.none :=
  ⟨by decide,
   C2_amended_terminal_short_circuits_next_step dbC2 1 1 ⟨1, 1, "s1", true⟩
     (by decide) (by decide)⟩

/-- Claim-C3 store: a terminal step 1 with an eligible (vacuously true)
transition to step 2, so the forward set is non-empty. -/
def dbC3 : DB :=
  { steps := [⟨1, 1, "s1", true⟩, ⟨2, 1, "s2", false⟩],
    transitions := [⟨1, 1, 1, 2, 1, 10⟩],
    groups := [⟨1, "AND"⟩],
    conditions := [],
    fields := [],
    answers := [],
    instance_steps := [],
    instances := [⟨1, 1, Option.some 1, "in_progress"⟩] }

/-- C3 counterexample: on an existing terminal step whose forward set is
non-empty, `determine_next_step` returns `None`, not the first element of
the forward set — the claimed equation fails. -/
theorem C3_counterexample_terminal_head_mismatch :
    determine_next_step dbC3 1 1 = Option.some Option.none ∧
    (get_valid_forward_steps dbC3 1 1).head? = Option.some 2 ∧
    ¬ determine_next_step dbC3 1 1 =
        Option.some (get_valid_forward_steps dbC3 1 1).head? := by
  decide

/-- C3 amended: for every existing **non-terminal** step,
`determine_next_step` equals the first element of the forward set (or
`None` when it is empty); on terminal steps it returns `None` regardless
of the forward set. -/
theorem C3_amended_next_step_is_head_when_non_terminal
    (db : DB) (instance_id step_id : Nat) (st : StepRow)
    (hfind : db.steps.find? (fun s => s.id == step_id) = Option.some st)
    (hterm : st.is_terminal = false) :
    determine_next_step db instance_id step_id =
      Option.some (get_valid_forward_steps db instance_id step_id).head? := by
  unfold determine_next_step
  rw [hfind]
  simp [hterm]

/-- Non-terminal store for the C3 witness: step 1 (non-terminal) with a
vacuously-true transition to step 2. -/
def dbC3w : DB :=
  { steps := [⟨1, 1, "s1", false⟩, ⟨2, 1, "s2", false⟩],
    transitions := [⟨1, 1, 1, 2, 1, 10⟩],
    groups := [⟨1, "AND"⟩],
    conditions := [],
    fields := [],
    answers := [],
    instance_steps := [],
    instances := [⟨1, 1, Option.some 1, "in_progress"⟩] }

theorem C3_amended_witness :
    dbC3w.steps.find? (fun s => s.id == 1) = Option.some ⟨1, 1, "s1", false⟩ ∧
    determine_next_step dbC3w 1 1 =
      Option.some (get_valid_forward_steps dbC3w 1 1).head? :=
  ⟨by decide,
   C3_amended_next_step_is_head_when_non_terminal dbC3w 1 1 ⟨1, 1, "s1", false⟩
     (by decide) (by decide)⟩

/-- C6: every existing condition group with zero conditions evaluates to
true, whatever its logic operator and whatever the answer snapshot. -/
theorem C6_empty_group_is_true
    (db : DB) (group_id : Nat) (all_answers : Nat → PyVal) (g : GroupRow)
    (hfind : db.groups.find? (fun x => x.id == group_id) = Option.some g)
    (hempty : db.conditions.filter (fun c => c.group_id == group_id) = []) :
    evaluate_group db group_id all_answers = true := by
  unfold evaluate_group
  rw [hfind, hempty]
  simp

/-- Store for the C6 witness: one `OR` group with no conditions. -/
def dbC6 : DB :=
  { steps := [], transitions := [], groups := [⟨1, "OR"⟩], conditions := [],
    fields := [], answers := [], instance_steps := [], instances := [] }

theorem C6_empty_group_is_true_witness :
    dbC6.groups.find? (fun x => x.id == 1) = Option.some ⟨1, "OR"⟩ ∧
    evaluate_group dbC6 1 (fun _ => PyVal.none) = true :=
  ⟨by decide,
   C6_empty_group_is_true dbC6 1 (fun _ => PyVal.none) ⟨1, "OR"⟩ (by decide)
     (by decide)⟩

/-- C7: atomic condition evaluation is total — `check_condition` is the
caught evaluation of the condition body, so whenever the body raises (any
coercion failure, `checkConditionExc = error`) the result is `false`, and
in particular a non-numeric string compared numerically under `eq` yields
`false`. -/
theorem C7_evaluation_total_coercion_failure_false :
    (∀ (a : PyVal) (op_code : String) (e : PyVal),
      checkConditionExc a op_code e = .error () →
      check_condition a op_code e = false) ∧
    (∀ (s : String) (q : Rat), parseFloat s = Option.none →
      check_condition (.str s) "eq" (.num q) = false) := by
  constructor
  · intro a op_code e h
    unfold check_condition
    rw [h]
    rfl
  · intro s q h
    show (checkConditionExc (.str s) "eq" (.num q)).toOption.getD false = false
    have heq : checkConditionExc (.str s) "eq" (.num q) = checkEq (.str s) (.num q) := rfl
    rw [heq]
    unfold checkEq
    simp only [pyFloat, h]
    rfl

theorem C7_witness :
    parseFloat "abc" = Option.none ∧
    check_condition (.str "abc") "eq" (.num 5) = false :=
  ⟨by decide, C7_evaluation_total_coercion_failure_false.2 "abc" 5 (by decide)⟩

/-- C10: every operator code outside the six implemented ones —
in particular the declared but unimplemented `gt`, `gte`, `lt`, `lte`,
`in`, `not_in`, `like`, `ilike` — falls through to the final
`return False` for all actual and expected values. -/
theorem C10_unimplemented_operators_false
    (a e : PyVal) (op_code : String)
    (h : op_code ∉
      (["is_true", "is_false", "eq", "ne", "is_empty", "not_empty"] : List String)) :
    check_condition a op_code e = false := by
  simp only [List.mem_cons, List.not_mem_nil, or_false, not_or] at h
  obtain ⟨h1, h2, h3, h4, h5, h6⟩ := h
  simp only [check_condition, checkConditionExc, beq_iff_eq, h1, h2, h3, h4, h5, h6,
    if_false]
  rfl

theorem C10_witness :
    ("gt" ∉
      (["is_true", "is_false", "eq", "ne", "is_empty", "not_empty"] : List String)) ∧
    check_condition (.num 3) "gt" (.num 1) = false :=
  ⟨by decide, C10_unimplemented_operators_false (.num 3) (.num 1) "gt" (by decide)⟩

/-- Bridge between the Boolean `List.contains` used by the navigation
check and propositional membership. -/
theorem natContainsIffMem (l : List Nat) (a : Nat) : l.contains a = true ↔ a ∈ l :=
  List.elem_iff

/-- C5: with a current step set, `validate_navigation` accepts exactly the
targets in `completed ∪ {current} ∪ forward-set-from-current` and rejects
every other target (any `Nat`, in particular any other step of the same
form) with 403. -/
theorem C5_navigation_allowed_set_exact
    (db : DB) (instance_id current target : Nat) :
    (validate_navigation db instance_id (Option.some current) target = .ok () ↔
      (target ∈ completedStepIds db instance_id ∨ target = current ∨
        target ∈ get_valid_forward_steps db instance_id current)) ∧
    (validate_navigation db instance_id (Option.some current) target = .error 403 ↔
      ¬ (target ∈ completedStepIds db instance_id ∨ target = current ∨
        target ∈ get_valid_forward_steps db instance_id current)) := by
  have hmem : target ∈ (completedStepIds db instance_id ++ [current] ++
      get_valid_forward_steps db instance_id current) ↔
      (target ∈ completedStepIds db instance_id ∨ target = current ∨
        target ∈ get_valid_forward_steps db instance_id current) := by
    simp [or_assoc]
  unfold validate_navigation
  by_cases h : target ∈ (completedStepIds db instance_id ++ [current] ++
      get_valid_forward_steps db instance_id current)
  · rw [if_pos ((natContainsIffMem _ _).mpr h)]
    constructor
    · simp [hmem.mp h]
    · simp [hmem.mp h]
  · rw [if_neg (fun hc => h ((natContainsIffMem _ _).mp hc))]
    constructor
    · simp only [hmem] at h
      simp [h]
    · simp only [hmem] at h
      simp [h]

/-- Store for the C5 witness: an instance at step 1 with a vacuously-true
transition to step 2 and nothing completed. -/
def dbC5 : DB :=
  { steps := [⟨1, 1, "s1", false⟩, ⟨2, 1, "s2", false⟩],
    transitions := [⟨1, 1, 1, 2, 1, 10⟩],
    groups := [⟨1, "AND"⟩],
    conditions := [],
    fields := [],
    answers := [],
    instance_steps := [],
    instances := [⟨1, 1, Option.some 1, "in_progress"⟩] }

theorem C5_navigation_allowed_set_exact_witness :
    validate_navigation dbC5 1 (Option.some 1) 2 = .ok () :=
  (C5_navigation_allowed_set_exact dbC5 1 1 2).1.mpr
    (Or.inr (Or.inr (by decide)))

/-- Filtering out the unrecognized pairs does not change the effect of the
submission loop: the loop already skips them. -/
theorem saveAnswersGo_filter_known (db : DB) (instance_id step_id : Nat) :
    ∀ (answers : List (String × PyVal)) (rows : List AnswerRow),
      saveAnswersGo db instance_id step_id rows
        (answers.filter (fun a => (fieldLookup db step_id a.1).isSome)) =
      saveAnswersGo db instance_id step_id rows answers := by
  intro answers
  induction answers with
  | nil => intro rows; rfl
  | cons a rest ih =>
    intro rows
    obtain ⟨code, raw⟩ := a
    rcases hl : fieldLookup db step_id code with _ | ⟨fid, dt⟩
    · have hp : ((fieldLookup db step_id (code, raw).1).isSome) = false := by
        simp [hl]
      rw [List.filter_cons_of_neg (by simp [hp])]
      rw [ih rows]
      conv_rhs => rw [saveAnswersGo]
      rw [hl]
    · rw [List.filter_cons_of_pos (by simp [hl])]
      simp only [saveAnswersGo, hl]
      rcases hc : coerceAnswer dt raw with e | cols
      · simp [hc]
      · simp [hc, ih]

/-- C9: `save_answers` silently skips every pair whose field code does not
resolve to a field of the step — the result is the same as if the
unrecognized pairs had never been submitted (so the recognized pairs of
the same request are still persisted) — and a request made only of
unrecognized codes succeeds without touching the store. -/
theorem C9_unknown_field_codes_skipped
    (db : DB) (instance_id step_id : Nat) (answers : List (String × PyVal)) :
    save_answers db instance_id step_id answers =
      save_answers db instance_id step_id
        (answers.filter (fun a => (fieldLookup db step_id a.1).isSome)) ∧
    ((∀ a ∈ answers, fieldLookup db step_id a.1 = Option.none) →
      save_answers db instance_id step_id answers = .ok db) := by
  constructor
  · unfold save_answers
    rw [saveAnswersGo_filter_known]
  · intro h
    have hfilter :
        answers.filter (fun a => (fieldLookup db step_id a.1).isSome) = [] := by
      apply List.filter_eq_nil_iff.mpr
      intro a ha
      simp [h a ha]
    unfold save_answers
    rw [← saveAnswersGo_filter_known, hfilter]
    rfl

/-- Store for the C9 witness: step 1 has one field, `known`. -/
def dbC9 : DB :=
  { steps := [⟨1, 1, "s1", false⟩], transitions := [], groups := [],
    conditions := [], fields := [⟨1, 1, "known", "string"⟩], answers := [],
    instance_steps := [], instances := [⟨1, 1, Option.some 1, "in_progress"⟩] }

theorem C9_unknown_field_codes_skipped_witness :
    (∀ a ∈ ([("bad", PyVal.str "x")] : List (String × PyVal)),
      fieldLookup dbC9 1 a.1 = Option.none) ∧
    save_answers dbC9 1 1 [("bad", PyVal.str "x")] = .ok dbC9 :=
  ⟨by decide,
   (C9_unknown_field_codes_skipped dbC9 1 1 [("bad", PyVal.str "x")]).2 (by decide)⟩

/-- Marking a ledger row completed touches only `instance_steps`, so the
step table it exposes is unchanged. -/
theorem completeLedgerRow_steps (db : DB) (instance_id step_id now : Nat) :
    (completeLedgerRow db instance_id step_id now).steps = db.steps := rfl

/-- ... and so is the instance table. -/
theorem completeLedgerRow_instances (db : DB) (instance_id step_id now : Nat) :
    (completeLedgerRow db instance_id step_id now).instances = db.instances := rfl

/-- The forward set reads only transitions, groups, conditions and
answers, so the ledger update of `submit_step` cannot change it. -/
theorem get_valid_forward_steps_completeLedgerRow
    (db : DB) (i s now instance_id source_step_id : Nat) :
    get_valid_forward_steps (completeLedgerRow db i s now) instance_id source_step_id =
      get_valid_forward_steps db instance_id source_step_id := rfl

/-- Submitting an empty answer list leaves the store unchanged. -/
theorem save_answers_nil (db : DB) (instance_id step_id : Nat) :
    save_answers db instance_id step_id [] = .ok db := rfl

/-- C4 amended: when `submit_step` runs on a non-terminal current step
with an empty forward set, no new entry event is logged, but — contrary to
the claim — the instance does **not** keep its current step: the code
takes the same completion branch as for a terminal step, setting the
status to `completed` and `current_step_id` to NULL. -/
theorem C4_amended_dead_end_completes_instance
    (db : DB) (instance_id cur now : Nat) (inst : InstanceRow) (st : StepRow)
    (hinst : db.instances.find? (fun i => i.id == instance_id) = Option.some inst)
    (hcur : inst.current_step_id = Option.some cur)
    (hstep : db.steps.find? (fun s => s.id == cur) = Option.some st)
    (hterm : st.is_terminal = false)
    (hfwd : get_valid_forward_steps db instance_id cur = []) :
    submit_step db instance_id [] now = .ok
      ({ completeLedgerRow db instance_id cur now with
         instances := db.instances.map (fun i =>
           if i.id == instance_id then
             { i with status := "completed", current_step_id := Option.none }
           else i) },
       ⟨Option.none, true⟩) := by
  unfold submit_step
  rw [hinst]
  dsimp only
  rw [hcur]
  dsimp only
  rw [save_answers_nil]
  dsimp only
  unfold determine_next_step
  rw [completeLedgerRow_steps, hstep]
  dsimp only
  simp only [hterm, Bool.false_eq_true, if_false]
  rw [get_valid_forward_steps_completeLedgerRow, hfwd]
  dsimp only [List.head?]
  rw [completeLedgerRow_instances]

/-- Store for claim C4: the instance sits on the non-terminal step 1,
which has no outgoing transitions at all. -/
def dbC4 : DB :=
  { steps := [⟨1, 1, "s1", false⟩],
    transitions := [],
    groups := [],
    conditions := [],
    fields := [],
    answers := [],
    instance_steps := [⟨1, 1, "entered", 0, Option.none⟩],
    instances := [⟨1, 1, Option.some 1, "in_progress"⟩] }

/-- C4 counterexample: submitting on that non-terminal dead-end does not
leave `current_step` unchanged and does mark the instance completed — the
resulting instance row is `(current_step_id = NULL, status = completed)`,
not the claimed unchanged `(current_step_id = 1, status = in_progress)`
(only the "no new entry event" part of the claim holds: the ledger keeps
its single, now completed, row). -/
theorem C4_counterexample_dead_end_submit :
    (submit_step dbC4 1 [] 7).toOption = Option.some
      ({ steps := [⟨1, 1, "s1", false⟩], transitions := [], groups := [],
         conditions := [], fields := [], answers := [],
         instance_steps := [⟨1, 1, "completed", 0, Option.some 7⟩],
         instances := [⟨1, 1, Option.none, "completed"⟩] },
       ⟨Option.none, true⟩) ∧
    ¬ (submit_step dbC4 1 [] 7).toOption.map
        (fun r => r.1.instances.map (fun i => (i.current_step_id, i.status))) =
      Option.some [(Option.some 1, "in_progress")] := by
  decide

theorem C4_amended_witness :
    get_valid_forward_steps dbC4 1 1 = [] ∧
    submit_step dbC4 1 [] 7 = .ok
      ({ completeLedgerRow dbC4 1 1 7 with
         instances := dbC4.instances.map (fun i =>
           if i.id == 1 then
             { i with status := "completed", current_step_id := Option.none }
           else i) },
       ⟨Option.none, true⟩) :=
  ⟨by decide,
   C4_amended_dead_end_completes_instance dbC4 1 1 7 ⟨1, 1, Option.some 1, "in_progress"⟩
     ⟨1, 1, "s1", false⟩ (by decide) (by decide) (by decide) (by decide) (by decide)⟩

/-- Inserting a transition whose id is below every id in the target list:
the priority-only order and the `(priority, id)` order make the same
placement decisions, so the two ordered inserts agree. -/
theorem orderedInsert_prio_eq_prioId (x : TransitionRow) :
    ∀ (s : List TransitionRow), (∀ y ∈ s, x.id ≤ y.id) →
      List.orderedInsert transPrioLE x s = List.orderedInsert transPrioIdLE x s := by
  intro s
  induction s with
  | nil => intro _; rfl
  | cons b t ih =>
    intro h
    have hid : x.id ≤ b.id := h b (List.mem_cons_self b t)
    by_cases hp : transPrioLE x b
    · have hp' : transPrioIdLE x b := by
        rcases lt_or_eq_of_le hp with hlt | heq
        · exact Or.inl hlt
        · exact Or.inr ⟨heq, hid⟩
      rw [List.orderedInsert, List.orderedInsert, if_pos hp, if_pos hp']
    · have hp' : ¬ transPrioIdLE x b := by
        intro hc
        rcases hc with hlt | ⟨heq, _⟩
        · exact hp (le_of_lt hlt)
        · exact hp (le_of_eq heq)
      rw [List.orderedInsert, List.orderedInsert, if_neg hp, if_neg hp']
      rw [ih (fun y hy => h y (List.mem_cons_of_mem b hy))]

/-- On a list stored in id-ascending order, the stable sort by priority
alone coincides with the sort by `(priority, id)`. -/
theorem insertionSort_prio_eq_prioId :
    ∀ (l : List TransitionRow), List.Pairwise (fun a b => a.id ≤ b.id) l →
      List.insertionSort transPrioLE l = List.insertionSort transPrioIdLE l := by
  intro l
  induction l with
  | nil => intro _; rfl
  | cons x xs ih =>
    intro h
    rcases List.pairwise_cons.mp h with ⟨hx, hxs⟩
    rw [List.insertionSort, List.insertionSort, ih hxs]
    apply orderedInsert_prio_eq_prioId
    intro y hy
    exact hx y ((List.mem_insertionSort transPrioIdLE).mp hy)

/-- C8: `resolveForwardSteps` returns the target steps of the eligible
outgoing transitions in `(priority ascending, id ascending)` order — it
equals the spec-worded resolver `spec_forward_steps`.  The runtime query
spells only `ORDER BY priority`, with ties delivered in stored row order;
the hypothesis `h` is the rowid invariant every representable store
satisfies (a SQLite table keyed by `id INTEGER PRIMARY KEY` is a B-tree
on the id, so its rows are always stored, scanned, and — through
`idx_transitions_source`, whose entries tie-break on rowid — returned in
id-ascending order), under which the stable priority sort coincides with
the `(priority, id)` ordering. -/
theorem C8_forward_steps_in_priority_id_order
    (db : DB) (instance_id source_step_id : Nat)
    (h : List.Pairwise (fun a b => a.id ≤ b.id) db.transitions) :
    get_valid_forward_steps db instance_id source_step_id =
      spec_forward_steps db instance_id source_step_id := by
  unfold get_valid_forward_steps spec_forward_steps
  rw [insertionSort_prio_eq_prioId _
    (h.filter (fun t => t.source_step_id == source_step_id))]
  rcases hs : List.insertionSort transPrioIdLE
      (db.transitions.filter (fun t => t.source_step_id == source_step_id)) with
    _ | ⟨a, rest⟩
  · simp
  · simp

/-- Claim-C8 store: two outgoing transitions of step 1 share priority 10,
stored — as a rowid table always is — in id-ascending order; their shared
guard group 1 is empty, hence true. -/
def dbC8 : DB :=
  { steps := [⟨1, 1, "s1", false⟩, ⟨5, 1, "s5", false⟩, ⟨6, 1, "s6", false⟩],
    transitions := [⟨1, 1, 1, 6, 1, 10⟩, ⟨2, 1, 1, 5, 1, 10⟩],
    groups := [⟨1, "AND"⟩],
    conditions := [],
    fields := [],
    answers := [],
    instance_steps := [],
    instances := [⟨1, 1, Option.some 1, "in_progress"⟩] }

theorem C8_forward_steps_in_priority_id_order_witness :
    List.Pairwise (fun a b => a.id ≤ b.id) dbC8.transitions ∧
    get_valid_forward_steps dbC8 1 1 = spec_forward_steps dbC8 1 1 :=
  ⟨by decide,
   C8_forward_steps_in_priority_id_order dbC8 1 1 (by decide)⟩
